import Mathlib

/-!
Shallow embedding of the visibility-detection core of `src/src/lazyImg.ts`
(the `lazy-img` Lit element): the `debounce` and `throttle` rate limiters,
`getScrollParent`, the geometric overlap test of `handleScroll`, and the
lifecycle state machine formed by `connectedCallback`, `firstUpdated`,
`onIntersection`, `handleScroll`, `loadImage`,
`removeScrollAndResizeListeners` and `disconnectedCallback`.

Machine numbers (`number` in TypeScript) are modelled as `Int` for
geometry and `Nat` for timestamps/durations; all the arithmetic involved
stays far from any overflow boundary, and `Date.now()` is monotone, so no
wrap-around modelling is needed.
-/

namespace LazyImg

/-! ## Geometry: bounding rectangles and the overlap test of `handleScroll`
(src/src/lazyImg.ts lines 201-232) -/

/-- A DOM bounding client rect, as read by `getBoundingClientRect()`. -/
structure Rect where
  top : Int
  bottom : Int
  left : Int
  right : Int
deriving DecidableEq, Repr

/-- `rect.bottom >= containerTop && rect.top <= containerBottom`
(lazyImg.ts line 216). -/
def inVerticalViewElem (rect parentRect : Rect) : Bool :=
  parentRect.top ≤ rect.bottom && rect.top ≤ parentRect.bottom

/-- `rect.right >= containerLeft && rect.left <= containerRight`
(lazyImg.ts line 217). -/
def inHorizontalViewElem (rect parentRect : Rect) : Bool :=
  parentRect.left ≤ rect.right && rect.left ≤ parentRect.right

/-- The element-container branch of `handleScroll`:
`isCurrentlyVisible = inVerticalView && inHorizontalView` (line 219). -/
def isVisibleElem (rect parentRect : Rect) : Bool :=
  inVerticalViewElem rect parentRect && inHorizontalViewElem rect parentRect

/-- `rect.bottom >= 0 && rect.top <= window.innerHeight` (line 221). -/
def inVerticalViewWin (rect : Rect) (winH : Int) : Bool :=
  0 ≤ rect.bottom && rect.top ≤ winH

/-- `rect.right >= 0 && rect.left <= window.innerWidth` (line 222). -/
def inHorizontalViewWin (rect : Rect) (winW : Int) : Bool :=
  0 ≤ rect.right && rect.left ≤ winW

/-- The window branch of `handleScroll` (lines 221-225). -/
def isVisibleWin (rect : Rect) (winH winW : Int) : Bool :=
  inVerticalViewWin rect winH && inHorizontalViewWin rect winW

/-- Two closed one-dimensional segments `[a1, a2]` and `[b1, b2]` overlap:
they share at least one point.  This is the spec's notion of "the
rectangles overlap on an axis". -/
def segOverlap (a1 a2 b1 b2 : Int) : Prop :=
  ∃ x : Int, a1 ≤ x ∧ x ≤ a2 ∧ b1 ≤ x ∧ x ≤ b2

/-! ## Rate limiters (src/src/lazyImg.ts lines 4-33)

`debounce` and `throttle` are closures over mutable variables
(`timerId`, `lastCall`, `timeoutId`); we embed them as explicit state
records plus step functions.  Each step returns the new state together
with the list of timestamps at which `callback` was invoked
synchronously during the step.  A driver (`debounceRun` / `throttleRun`)
replays a monotone list of call timestamps against the host event loop:
before each call whose time lies strictly after a pending timer's due
time the timer fires (a queued timer never runs between two calls that
happen at the same instant, i.e. inside one task), and a timer still
pending after the last call eventually fires. -/

/-- State of one `debounce` closure: `timerId`, here the due time of the
pending timer, if any.  (After the timer fires, the stale id kept by the
closure has no further effect, so a fired timer is `none`.) -/
structure DebounceState where
  timer : Option Nat
deriving DecidableEq, Repr

/-- One invocation of the function returned by `debounce` at time `now`:
`clearTimeout(timerId); timerId = setTimeout(..., delay)` (lines 7-10).
No synchronous invocation of `callback` ever happens. -/
def debounceCall (delay : Nat) (_s : DebounceState) (now : Nat) :
    DebounceState × List Nat :=
  (⟨some (now + delay)⟩, [])

/-- The queued `debounce` timer firing at its due time `t`:
`callback(...args)` (line 9). -/
def debounceFire (_s : DebounceState) (t : Nat) : DebounceState × List Nat :=
  (⟨none⟩, [t])

/-- Replay of a monotone list of call times through one `debounce` closure;
returns all invocation times of `callback`. -/
def debounceRun (delay : Nat) : DebounceState → List Nat → List Nat
  | s, [] =>
    match s.timer with
    | some tf => [tf]
    | none => []
  | s, c :: cs =>
    match s.timer with
    | some tf =>
      if tf < c then
        let (s1, out1) := debounceFire ⟨some tf⟩ tf
        let (s2, out2) := debounceCall delay s1 c
        out1 ++ out2 ++ debounceRun delay s2 cs
      else
        let (s1, out1) := debounceCall delay s c
        out1 ++ debounceRun delay s1 cs
    | none =>
      let (s1, out1) := debounceCall delay s c
      out1 ++ debounceRun delay s1 cs

/-- State of one `throttle` closure: `lastCall` and `timeoutId` (here the
due time of the pending trailing timer, if any) — lines 15-16. -/
structure ThrottleState where
  lastCall : Nat
  timer : Option Nat
deriving DecidableEq, Repr

/-- One invocation of the function returned by `throttle` at time `now`
(lines 18-32).  `remaining = delay - (now - lastCall)`; if
`now - lastCall >= delay` the callback runs immediately and `lastCall`
is updated; otherwise, if no trailing timer is pending, one is scheduled
`remaining` from now; otherwise the call is coalesced into the pending
timer. -/
def throttleCall (delay : Nat) (s : ThrottleState) (now : Nat) :
    ThrottleState × List Nat :=
  if delay ≤ now - s.lastCall then
    ({ lastCall := now, timer := s.timer }, [now])
  else if s.timer = none then
    ({ s with timer := some (now + (delay - (now - s.lastCall))) }, [])
  else
    (s, [])

/-- The queued `throttle` trailing timer firing at its due time `t`:
`lastCall = Date.now(); callback(...args); timeoutId = null`
(lines 26-30). -/
def throttleFire (_s : ThrottleState) (t : Nat) : ThrottleState × List Nat :=
  ({ lastCall := t, timer := none }, [t])

/-- Replay of a monotone list of call times through one `throttle`
closure; returns all invocation times of `callback`. -/
def throttleRun (delay : Nat) : ThrottleState → List Nat → List Nat
  | s, [] =>
    match s.timer with
    | some tf => [tf]
    | none => []
  | s, c :: cs =>
    match s.timer with
    | some tf =>
      if tf < c then
        let (s1, out1) := throttleFire s tf
        let (s2, out2) := throttleCall delay s1 c
        out1 ++ out2 ++ throttleRun delay s2 cs
      else
        let (s1, out1) := throttleCall delay s c
        out1 ++ throttleRun delay s1 cs
    | none =>
      let (s1, out1) := throttleCall delay s c
      out1 ++ throttleRun delay s1 cs

/-! ## Scroll-container resolution (`getScrollParent`, lines 160-172) -/

/-- `pat` occurs as a contiguous segment of `l`. -/
def containsSeg (pat : List Char) : List Char → Bool
  | [] => pat.isEmpty
  | c :: cs => pat.isPrefixOf (c :: cs) || containsSeg pat cs

/-- The JavaScript test `/(auto|scroll)/.test(s)`: `s` contains `"auto"`
or `"scroll"` as a substring. -/
def regexAutoScroll (s : String) : Bool :=
  containsSeg "auto".toList s.toList || containsSeg "scroll".toList s.toList

/-- The computed overflow styles of one ancestor element, as read from
`getComputedStyle(parent)` (line 164). -/
structure OverflowStyle where
  overflow : String
  overflowY : String
  overflowX : String
deriving DecidableEq, Repr

/-- The per-ancestor test of `getScrollParent`:
`/(auto|scroll)/.test(style.overflow + style.overflowY + style.overflowX)`
(line 165). -/
def styleMatches (st : OverflowStyle) : Bool :=
  regexAutoScroll (st.overflow ++ st.overflowY ++ st.overflowX)

/-- `getScrollParent` (lines 160-172) over the ancestor chain of the
element, listed nearest-first (`element.parentElement` first).  `some i`
is the `i`-th ancestor in the chain; `none` is `window`. -/
def getScrollParent : List OverflowStyle → Option Nat
  | [] => none
  | st :: rest =>
    if styleMatches st then some 0 else (getScrollParent rest).map (· + 1)

/-- The spec's per-ancestor criterion, stated field-wise: the computed
`overflow`, `overflowY` or `overflowX` is `"auto"` or `"scroll"`. -/
def fieldMatches (st : OverflowStyle) : Bool :=
  (st.overflow == "auto" || st.overflow == "scroll") ||
  (st.overflowY == "auto" || st.overflowY == "scroll") ||
  (st.overflowX == "auto" || st.overflowX == "scroll")

/-- Modelled from the spec: the resolver described in §4.2 — the first
(nearest) ancestor matching field-wise, else the window. -/
def specScrollParent : List OverflowStyle → Option Nat
  | [] => none
  | st :: rest =>
    if fieldMatches st then some 0 else (specScrollParent rest).map (· + 1)

/-- The canonical values the CSS `overflow`, `overflow-x` and `overflow-y`
properties can compute to. -/
def canonOverflow : List String :=
  ["visible", "hidden", "clip", "auto", "scroll", "overlay"]

/-! ## The `LazyImg` lifecycle state machine

The element's reactive properties relevant to detection are frozen into a
`Config`; `useObserverEff` is the conjunction
`useIntersectionObserver && 'IntersectionObserver' in window` tested on
line 121.  The geometry the DOM would report at a given instant
(`getBoundingClientRect()` of the element and of the scroll parent,
`window.innerHeight/innerWidth`) is supplied from outside at each step as
a `View`.  The result of `getScrollParent(this)` (line 178) enters
`connectedCallback` as the flag `resolvedIsElem`: whether the resolved
scroll parent is an `HTMLElement` (as opposed to `window`), which is the
only aspect of it that `handleScroll` branches on (line 209).

Each step returns the successor state together with the list of
externally visible actions it performs, in program order:
`Act.reveal` is a call of `loadImage` (the single reveal notification),
the `Act.rm*` actions are the three `removeEventListener` calls of
`removeScrollAndResizeListeners` (lines 143-145), and
`Act.obsDisconnect` is a call of `observer.disconnect()`. -/

/-- The detection-relevant configuration of one element instance. -/
structure Config where
  visibleByDefault : Bool
  useObserverEff : Bool
  delayMethodDebounce : Bool
  delayTime : Nat
  threshold : Int
deriving DecidableEq, Repr

/-- The geometry the DOM reports at one instant. -/
structure View where
  rect : Rect
  parentRect : Rect
  winH : Int
  winW : Int
deriving DecidableEq, Repr

/-- The mutable internal state of one `LazyImg` instance (lines 80-84),
together with the state of its rate-limiter closure and observer. -/
structure St where
  imageVisible : Bool
  observerCreated : Bool
  observerConnected : Bool
  observed : Bool
  cbAttached : Bool
  parentIsElem : Bool
  timer : Option Nat
  lastCall : Nat
  rootMargin : Int
deriving DecidableEq, Repr

/-- Externally visible actions of a step. -/
inductive Act where
  | reveal
  | rmScrollParentScroll
  | rmWindowScroll
  | rmWindowResize
  | obsDisconnect
deriving DecidableEq, Repr

/-- Number of `loadImage` calls (reveal notifications) in an action log. -/
def countReveals : List Act → Nat
  | [] => 0
  | Act.reveal :: rest => countReveals rest + 1
  | _ :: rest => countReveals rest

/-- Field defaults of a freshly constructed element (lines 80-84):
`imageVisible = false`, no observer, no callback, `scrollParent = window`. -/
def initSt : St :=
  { imageVisible := false
    observerCreated := false
    observerConnected := false
    observed := false
    cbAttached := false
    parentIsElem := false
    timer := none
    lastCall := 0
    rootMargin := 0 }

/-- `loadImage` (lines 234-237): set `imageVisible` and notify
(`requestUpdate` re-renders with the full-quality source). -/
def loadImage (s : St) : St × List Act :=
  ({ s with imageVisible := true }, [Act.reveal])

/-- `removeScrollAndResizeListeners` (lines 141-148): guarded by
`scrollAndResizeCallback` being defined; removes the scroll listener from
the scroll parent, a scroll listener from `window`, the resize listener
from `window`, and clears the callback reference. -/
def removeScrollAndResizeListeners (s : St) : St × List Act :=
  if s.cbAttached then
    ({ s with cbAttached := false },
      [Act.rmScrollParentScroll, Act.rmWindowScroll, Act.rmWindowResize])
  else
    (s, [])

/-- The overlap test `handleScroll` performs, selected by the kind of the
cached `scrollParent` (lines 209-226). -/
def visibleFor (s : St) (v : View) : Bool :=
  if s.parentIsElem then isVisibleElem v.rect v.parentRect
  else isVisibleWin v.rect v.winH v.winW

/-- `handleScroll` (lines 201-232): early return when `visibleByDefault`
or already visible; otherwise compute the overlap and, when visible,
`loadImage()` then `removeScrollAndResizeListeners()`. -/
def handleScroll (cfg : Config) (s : St) (v : View) : St × List Act :=
  if cfg.visibleByDefault || s.imageVisible then (s, [])
  else if visibleFor s v then
    let (s1, a1) := loadImage s
    let (s2, a2) := removeScrollAndResizeListeners s1
    (s2, a1 ++ a2)
  else (s, [])

/-- `onIntersection` (lines 194-199): on the first entry intersecting,
`loadImage()` then `observer?.disconnect()`.  There is no
`imageVisible` guard here. -/
def onIntersection (s : St) (isIntersecting : Bool) : St × List Act :=
  if isIntersecting then
    let (s1, a1) := loadImage s
    ({ s1 with observerConnected := false },
      a1 ++ (if s1.observerCreated then [Act.obsDisconnect] else []))
  else (s, [])

/-- `initialiseObserver` (lines 188-192): create the observer with
`rootMargin` equal to the configured `threshold`. -/
def initialiseObserver (cfg : Config) (s : St) : St :=
  { s with observerCreated := true, observerConnected := true
           rootMargin := cfg.threshold }

/-- `initScrollAndResizeHandlers` (lines 175-186): build the rate-limited
callback, resolve and cache the scroll parent, and attach the scroll and
resize listeners. -/
def initScrollAndResizeHandlers (s : St) (resolvedIsElem : Bool) : St :=
  { s with cbAttached := true, parentIsElem := resolvedIsElem }

/-- `connectedCallback` (lines 117-127): strategy selection, then one
unconditional synchronous `handleScroll()`. -/
def connectedCallback (cfg : Config) (resolvedIsElem : Bool) (v : View) :
    St × List Act :=
  handleScroll cfg
    (if cfg.visibleByDefault then { initSt with imageVisible := true }
     else if cfg.useObserverEff then initialiseObserver cfg initSt
     else initScrollAndResizeHandlers initSt resolvedIsElem) v

/-- `disconnectedCallback` (lines 129-133): `observer?.disconnect()` then
`removeScrollAndResizeListeners()`.  No timer is cancelled. -/
def disconnectedCallback (s : St) : St × List Act :=
  let a1 := if s.observerCreated then [Act.obsDisconnect] else []
  let (s2, a2) := removeScrollAndResizeListeners { s with observerConnected := false }
  (s2, a1 ++ a2)

/-- Events the host can deliver to a connected instance.  `scroll t v`
is a scroll or resize event at time `t` (both target the same
rate-limited callback); it reaches the instance only while the listeners
are attached.  `fire t v` is the host running a timer queued by the rate
limiter for due time `t`; a queued timer fires even after the listeners
were removed, since nothing cancels it.  `observe` is `firstUpdated`
(lines 135-139).  `obsCb b` is the observer delivering an entry with
`isIntersecting = b`; it requires a created, observing, not-disconnected
observer.  `disconnect` is `disconnectedCallback`. -/
inductive Ev where
  | scroll (t : Nat) (v : View)
  | fire (t : Nat) (v : View)
  | observe
  | obsCb (isIntersecting : Bool)
  | disconnect
deriving DecidableEq, Repr

/-- One event step of the machine. -/
def stepEv (cfg : Config) (s : St) : Ev → St × List Act
  | .scroll t v =>
    if s.cbAttached then
      if cfg.delayMethodDebounce then
        ({ s with timer := some (t + cfg.delayTime) }, [])
      else if cfg.delayTime ≤ t - s.lastCall then
        handleScroll cfg { s with lastCall := t } v
      else if s.timer = none then
        ({ s with timer := some (t + (cfg.delayTime - (t - s.lastCall))) }, [])
      else (s, [])
    else (s, [])
  | .fire t v =>
    if s.timer = some t then
      if cfg.delayMethodDebounce then
        handleScroll cfg { s with timer := none } v
      else
        handleScroll cfg { s with timer := none, lastCall := t } v
    else (s, [])
  | .observe =>
    (if s.observerCreated then { s with observed := true } else s, [])
  | .obsCb b =>
    if s.observerCreated && s.observed && s.observerConnected then
      onIntersection s b
    else (s, [])
  | .disconnect => disconnectedCallback s

/-- Replay a list of events from a state, concatenating the action logs. -/
def runEvents (cfg : Config) : St → List Ev → St × List Act
  | s, [] => (s, [])
  | s, e :: es =>
    ((runEvents cfg (stepEv cfg s e).1 es).1,
      (stepEv cfg s e).2 ++ (runEvents cfg (stepEv cfg s e).1 es).2)

/-- A complete run of one instance: activation via `connectedCallback`,
then an arbitrary event sequence. -/
def lazyTrace (cfg : Config) (resolvedIsElem : Bool) (v : View)
    (evs : List Ev) : St × List Act :=
  ((runEvents cfg (connectedCallback cfg resolvedIsElem v).1 evs).1,
    (connectedCallback cfg resolvedIsElem v).2 ++
      (runEvents cfg (connectedCallback cfg resolvedIsElem v).1 evs).2)

/-- Upper bound used for the reveal-count invariant: one potential reveal
from the polling path (it flips `imageVisible`) and one from the observer
path (it flips `observerConnected` off). -/
def obBound (s : St) : Nat :=
  (if s.imageVisible then 1 else 0) +
  (if s.observerCreated && !s.observerConnected then 1 else 0)

/-- The state after one external disposal call. -/
def disposeSt (s : St) : St := (disconnectedCallback s).1

/-- The `removeEventListener` calls contained in an action log. -/
def listenerRemovals (l : List Act) : List Act :=
  l.filter (fun a =>
    a == Act.rmScrollParentScroll || a == Act.rmWindowScroll ||
    a == Act.rmWindowResize)

/-- The overlap test `connectedCallback`'s unconditional `handleScroll()`
call performs, as a function of the selected strategy: under the
observer strategy (and under polling when the resolved parent is the
window) the cached `scrollParent` is still the field default `window`,
so the test is against the window viewport; under polling with an
element parent it is against that element's rect. -/
def activationCheck (cfg : Config) (resolvedIsElem : Bool) (v : View) : Bool :=
  if cfg.useObserverEff then isVisibleWin v.rect v.winH v.winW
  else if resolvedIsElem then isVisibleElem v.rect v.parentRect
  else isVisibleWin v.rect v.winH v.winW

/-! ## Helper lemmas -/

theorem segOverlap_iff {a1 a2 b1 b2 : Int} (ha : a1 ≤ a2) (hb : b1 ≤ b2) :
    segOverlap a1 a2 b1 b2 ↔ (b1 ≤ a2 ∧ a1 ≤ b2) := by
  constructor
  · rintro ⟨x, h1, h2, h3, h4⟩
    exact ⟨le_trans h3 h2, le_trans h1 h4⟩
  · rintro ⟨h1, h2⟩
    exact ⟨max a1 b1, le_max_left _ _, max_le ha h1, le_max_right _ _, max_le h2 hb⟩

/-- On canonical computed values, the concatenated regex test of the code
agrees with the field-wise criterion of the spec. -/
theorem styleMatches_eq_fieldMatches :
    ∀ o ∈ canonOverflow, ∀ y ∈ canonOverflow, ∀ x ∈ canonOverflow,
      styleMatches ⟨o, y, x⟩ = fieldMatches ⟨o, y, x⟩ := by decide

theorem countReveals_append (a b : List Act) :
    countReveals (a ++ b) = countReveals a + countReveals b := by
  induction a with
  | nil => simp [countReveals]
  | cons x xs ih => cases x <;> simp [countReveals, ih] <;> omega

theorem obBound_le_two (s : St) : obBound s ≤ 2 := by
  unfold obBound
  split <;> split <;> omega

/-- Closed form of `handleScroll`. -/
theorem handleScroll_eq (cfg : Config) (s : St) (v : View) :
    handleScroll cfg s v =
      if cfg.visibleByDefault || s.imageVisible then (s, [])
      else if visibleFor s v then
        (if s.cbAttached then
          ({ s with imageVisible := true, cbAttached := false },
            [Act.reveal, Act.rmScrollParentScroll, Act.rmWindowScroll,
             Act.rmWindowResize])
         else ({ s with imageVisible := true }, [Act.reveal]))
      else (s, []) := by
  simp only [handleScroll, loadImage, removeScrollAndResizeListeners]
  split
  · rfl
  · split
    · split <;> rfl
    · rfl

theorem handleScroll_bound (cfg : Config) (s : St) (v : View) :
    countReveals (handleScroll cfg s v).2 + obBound s ≤
      obBound (handleScroll cfg s v).1 ∧
    (handleScroll cfg s v).1.observerCreated = s.observerCreated ∧
    (handleScroll cfg s v).1.observerConnected = s.observerConnected := by
  rw [handleScroll_eq]
  split
  · simp [countReveals]
  · split
    · rename_i hguard _
      rw [Bool.or_eq_true, not_or] at hguard
      have hiv : s.imageVisible = false := by
        rcases hguard with ⟨_, h2⟩
        exact Bool.not_eq_true _ ▸ (by simpa using h2)
      split <;> simp [countReveals, obBound, hiv]
    · simp [countReveals]

theorem visibleFor_timer (s : St) (tm : Option Nat) (v : View) :
    visibleFor { s with timer := tm } v = visibleFor s v := by
  simp [visibleFor]

theorem visibleFor_timer_lastCall (s : St) (tm : Option Nat) (lc : Nat)
    (v : View) :
    visibleFor { s with timer := tm, lastCall := lc } v = visibleFor s v := by
  simp [visibleFor]

theorem visibleFor_lastCall (s : St) (lc : Nat) (v : View) :
    visibleFor { s with lastCall := lc } v = visibleFor s v := by
  simp [visibleFor]

/-- When the guard passes and the overlap test succeeds, `handleScroll`
emits exactly one reveal. -/
theorem handleScroll_reveal_count (cfg : Config) (s : St) (v : View)
    (h2 : cfg.visibleByDefault = false) (h3 : s.imageVisible = false)
    (h4 : visibleFor s v = true) :
    countReveals (handleScroll cfg s v).2 = 1 := by
  rw [handleScroll_eq]
  simp only [h2, h3, h4, Bool.or_self, Bool.false_eq_true, if_false, if_true]
  split <;> simp [countReveals]

theorem obBound_timer (s : St) (tm : Option Nat) :
    obBound { s with timer := tm } = obBound s := by
  simp [obBound]

theorem obBound_timer_lastCall (s : St) (tm : Option Nat) (lc : Nat) :
    obBound { s with timer := tm, lastCall := lc } = obBound s := by
  simp [obBound]

theorem obBound_lastCall (s : St) (lc : Nat) :
    obBound { s with lastCall := lc } = obBound s := by
  simp [obBound]

/-- `onIntersection` on an intersecting entry: reveal, then disconnect. -/
theorem onIntersection_true (s : St) (hc : s.observerCreated = true) :
    onIntersection s true =
      ({ s with imageVisible := true, observerConnected := false },
        [Act.reveal, Act.obsDisconnect]) := by
  simp [onIntersection, loadImage, hc]

theorem disconnectedCallback_bound (s : St) :
    countReveals (disconnectedCallback s).2 = 0 ∧
    obBound s ≤ obBound (disconnectedCallback s).1 ∧
    (disconnectedCallback s).1.observerCreated = s.observerCreated := by
  obtain ⟨iv, oc, ocon, ob, cb, pie, tm, lc, rm⟩ := s
  cases cb <;> cases oc <;> cases ocon <;> cases iv <;>
    simp [disconnectedCallback, removeScrollAndResizeListeners,
      countReveals_append, countReveals, obBound]

theorem stepEv_bound (cfg : Config) (s : St) (e : Ev) :
    countReveals (stepEv cfg s e).2 + obBound s ≤ obBound (stepEv cfg s e).1 ∧
    (stepEv cfg s e).1.observerCreated = s.observerCreated := by
  cases e with
  | scroll t v =>
    simp only [stepEv]
    split
    · split
      · exact ⟨by simp [countReveals, obBound_timer], rfl⟩
      · split
        · have h := handleScroll_bound cfg { s with lastCall := t } v
          exact ⟨by rw [← obBound_lastCall s t]; exact h.1, h.2.1⟩
        · split
          · exact ⟨by simp [countReveals, obBound_timer], rfl⟩
          · exact ⟨by simp [countReveals], rfl⟩
    · exact ⟨by simp [countReveals], rfl⟩
  | fire t v =>
    simp only [stepEv]
    split
    · split
      · have h := handleScroll_bound cfg { s with timer := none } v
        exact ⟨by rw [← obBound_timer s none]; exact h.1, h.2.1⟩
      · have h := handleScroll_bound cfg { s with timer := none, lastCall := t } v
        exact ⟨by rw [← obBound_timer_lastCall s none t]; exact h.1, h.2.1⟩
    · exact ⟨by simp [countReveals], rfl⟩
  | observe =>
    simp only [stepEv]
    split <;> simp [countReveals, obBound]
  | obsCb b =>
    simp only [stepEv]
    split
    · rename_i hg
      simp only [Bool.and_eq_true] at hg
      obtain ⟨⟨hc, _⟩, hcon⟩ := hg
      cases b with
      | true =>
        rw [onIntersection_true s hc]
        refine ⟨?_, rfl⟩
        cases hiv : s.imageVisible <;>
          simp [countReveals, obBound, hc, hcon, hiv] <;> omega
      | false =>
        exact ⟨by simp [onIntersection, countReveals], by simp [onIntersection]⟩
    · exact ⟨by simp [countReveals], rfl⟩
  | disconnect =>
    have h := disconnectedCallback_bound s
    refine ⟨?_, h.2.2⟩
    show countReveals (disconnectedCallback s).2 + obBound s ≤
      obBound (disconnectedCallback s).1
    rw [h.1]
    simpa using h.2.1

theorem runEvents_bound (cfg : Config) (evs : List Ev) :
    ∀ s : St,
      countReveals (runEvents cfg s evs).2 + obBound s ≤
        obBound (runEvents cfg s evs).1 ∧
      (runEvents cfg s evs).1.observerCreated = s.observerCreated := by
  induction evs with
  | nil => intro s; simp [runEvents, countReveals]
  | cons e es ih =>
    intro s
    have h1 := stepEv_bound cfg s e
    have h2 := ih (stepEv cfg s e).1
    simp only [runEvents]
    refine ⟨?_, by rw [h2.2, h1.2]⟩
    rw [countReveals_append]
    omega

theorem connectedCallback_bound (cfg : Config) (ri : Bool) (v : View) :
    countReveals (connectedCallback cfg ri v).2 ≤
      obBound (connectedCallback cfg ri v).1 ∧
    (connectedCallback cfg ri v).1.observerCreated =
      (!cfg.visibleByDefault && cfg.useObserverEff) := by
  unfold connectedCallback
  split
  · rename_i hvbd
    rw [handleScroll_eq]
    simp [hvbd, countReveals, obBound, initSt]
  · rename_i hvbd
    have hvbd' : cfg.visibleByDefault = false := by
      revert hvbd; cases cfg.visibleByDefault <;> simp
    split
    · rename_i huse
      have h := handleScroll_bound cfg (initialiseObserver cfg initSt) v
      refine ⟨?_, ?_⟩
      · have hb : obBound (initialiseObserver cfg initSt) = 0 := by
          simp [obBound, initialiseObserver, initSt]
        have := h.1
        omega
      · rw [h.2.1]
        simp [initialiseObserver, initSt, hvbd', huse]
    · rename_i huse
      have h := handleScroll_bound cfg (initScrollAndResizeHandlers initSt ri) v
      refine ⟨?_, ?_⟩
      · have hb : obBound (initScrollAndResizeHandlers initSt ri) = 0 := by
          simp [obBound, initScrollAndResizeHandlers, initSt]
        have := h.1
        omega
      · rw [h.2.1]
        have huse' : cfg.useObserverEff = false := by
          revert huse; cases cfg.useObserverEff <;> simp
        simp [initScrollAndResizeHandlers, initSt, huse']

/-- Closed form of `connectedCallback` when `visibleByDefault` is off. -/
theorem connectedCallback_eq (cfg : Config) (ri : Bool) (v : View)
    (h : cfg.visibleByDefault = false) :
    connectedCallback cfg ri v =
      if cfg.useObserverEff then
        (if isVisibleWin v.rect v.winH v.winW then
          ({ initSt with observerCreated := true, observerConnected := true, rootMargin := cfg.threshold, imageVisible := true }, [Act.reveal])
         else
          ({ initSt with observerCreated := true, observerConnected := true, rootMargin := cfg.threshold }, []))
      else
        (if (if ri then isVisibleElem v.rect v.parentRect
             else isVisibleWin v.rect v.winH v.winW) then
          ({ initSt with parentIsElem := ri, imageVisible := true },
            [Act.reveal, Act.rmScrollParentScroll, Act.rmWindowScroll,
             Act.rmWindowResize])
         else ({ initSt with cbAttached := true, parentIsElem := ri }, [])) := by
  unfold connectedCallback
  rw [handleScroll_eq]
  simp only [h, Bool.false_eq_true, if_false]
  split
  · rename_i huse
    simp [huse, initialiseObserver, initSt, visibleFor, loadImage,
      removeScrollAndResizeListeners]
  · rename_i huse
    have huse' : cfg.useObserverEff = false := by
      revert huse; cases cfg.useObserverEff <;> simp
    simp [huse', initScrollAndResizeHandlers, initSt, visibleFor, loadImage,
      removeScrollAndResizeListeners]

/-- State effect of one `disconnectedCallback`: listeners detached,
observer disconnected, everything else — the pending timer included —
left as it was. -/
theorem disconnectedCallback_state (s : St) :
    (disconnectedCallback s).1.cbAttached = false ∧
    (disconnectedCallback s).1.observerConnected = false ∧
    (disconnectedCallback s).1.timer = s.timer ∧
    (disconnectedCallback s).1.imageVisible = s.imageVisible := by
  obtain ⟨iv, oc, ocon, ob, cb, pie, tm, lc, rm⟩ := s
  cases cb <;> simp [disconnectedCallback, removeScrollAndResizeListeners]

theorem disposeSt_fix (s : St) : disposeSt (disposeSt s) = disposeSt s := by
  obtain ⟨iv, oc, ocon, ob, cb, pie, tm, lc, rm⟩ := s
  cases cb <;> simp [disposeSt, disconnectedCallback,
    removeScrollAndResizeListeners]

theorem disposeSt_iterate (n : Nat) (s : St) (h : 1 ≤ n) :
    disposeSt^[n] s = disposeSt s := by
  induction n with
  | zero => omega
  | succ m ih =>
    cases m with
    | zero => simp
    | succ k =>
      rw [Function.iterate_succ_apply', ih (by omega), disposeSt_fix]

theorem throttleCall_immediate (delay : Nat) (s : ThrottleState) (now : Nat)
    (h : delay ≤ now - s.lastCall) :
    throttleCall delay s now = ({ lastCall := now, timer := s.timer }, [now]) := by
  simp [throttleCall, h]

theorem throttleCall_schedule (delay : Nat) (s : ThrottleState) (now : Nat)
    (h1 : s.lastCall ≤ now) (h2 : now - s.lastCall < delay)
    (h3 : s.timer = none) :
    throttleCall delay s now =
      ({ s with timer := some (s.lastCall + delay) }, []) := by
  simp only [throttleCall]
  rw [if_neg (by omega), if_pos h3]
  have harith : now + (delay - (now - s.lastCall)) = s.lastCall + delay := by
    omega
  rw [harith]

theorem throttleCall_coalesce (delay : Nat) (s : ThrottleState) (now tf : Nat)
    (h2 : now - s.lastCall < delay) (h3 : s.timer = some tf) :
    throttleCall delay s now = (s, []) := by
  simp only [throttleCall]
  rw [if_neg (by omega), if_neg (by simp [h3])]

theorem throttleRun_cons_none (delay lc c : Nat) (cs : List Nat) :
    throttleRun delay ⟨lc, none⟩ (c :: cs) =
      (throttleCall delay ⟨lc, none⟩ c).2 ++
        throttleRun delay (throttleCall delay ⟨lc, none⟩ c).1 cs := by
  rcases hp : throttleCall delay ⟨lc, none⟩ c with ⟨s1, out1⟩
  simp only [throttleRun, hp]

/-- Calls arriving while a trailing timer is pending and the window has
not elapsed are all coalesced; the pending timer eventually fires alone. -/
theorem throttleRun_coalesce (delay : Nat) :
    ∀ (cs : List Nat) (lc tf : Nat),
      (∀ c ∈ cs, c ≤ tf ∧ c - lc < delay) →
      throttleRun delay ⟨lc, some tf⟩ cs = [tf] := by
  intro cs
  induction cs with
  | nil => intro lc tf _; simp [throttleRun]
  | cons c cs ih =>
    intro lc tf hall
    have hc := hall c (List.mem_cons_self _ _)
    simp only [throttleRun]
    rw [if_neg (by omega)]
    rw [throttleCall_coalesce delay ⟨lc, some tf⟩ c tf (by simpa using hc.2) rfl]
    simpa using ih lc tf (fun x hx => hall x (List.mem_cons_of_mem _ hx))

/-! ## Claim C1 — single notification -/

/-- C1 (counterexample): with the observer strategy and an element already
visible at activation, `loadImage` is invoked twice — once by the
synchronous activation check and once by the first intersecting observer
callback (`onIntersection` has no `imageVisible` guard) — refuting
"invoked exactly once". -/
theorem singleNotification_cex :
    countReveals (lazyTrace ⟨false, true, true, 0, 0⟩ false
      ⟨⟨0, 100, 0, 100⟩, ⟨0, 0, 0, 0⟩, 800, 800⟩
      [Ev.observe, Ev.obsCb true]).2 = 2 := by decide

/-- C1 (amended): across every event sequence, `loadImage` is invoked at
most once per instance under the polling strategy, and at most twice
overall (the second invocation only possible from the observer callback
after the activation check already revealed). -/
theorem singleNotification (cfg : Config) (ri : Bool) (v : View)
    (evs : List Ev) :
    (cfg.useObserverEff = false →
      countReveals (lazyTrace cfg ri v evs).2 ≤ 1) ∧
    countReveals (lazyTrace cfg ri v evs).2 ≤ 2 := by
  have hc := connectedCallback_bound cfg ri v
  have hr := runEvents_bound cfg evs (connectedCallback cfg ri v).1
  have hb2 := obBound_le_two (runEvents cfg (connectedCallback cfg ri v).1 evs).1
  have hct : countReveals (lazyTrace cfg ri v evs).2 =
      countReveals (connectedCallback cfg ri v).2 +
        countReveals (runEvents cfg (connectedCallback cfg ri v).1 evs).2 := by
    simp only [lazyTrace]
    exact countReveals_append _ _
  constructor
  · intro hobs
    have hcreated :
        (runEvents cfg (connectedCallback cfg ri v).1 evs).1.observerCreated =
          false := by
      rw [hr.2, hc.2, hobs]
      simp
    have hb1 :
        obBound (runEvents cfg (connectedCallback cfg ri v).1 evs).1 ≤ 1 := by
      unfold obBound
      rw [hcreated]
      simp
      split <;> omega
    have h1 := hc.1
    have h2 := hr.1
    omega
  · have h1 := hc.1
    have h2 := hr.1
    omega

/-- C1 (witness): a polling-strategy run reveals at most once. -/
theorem singleNotification_w :
    countReveals (lazyTrace ⟨false, false, true, 300, 0⟩ false
      ⟨⟨0, 100, 0, 100⟩, ⟨0, 0, 0, 0⟩, 800, 800⟩ []).2 ≤ 1 :=
  (singleNotification ⟨false, false, true, 300, 0⟩ false
    ⟨⟨0, 100, 0, 100⟩, ⟨0, 0, 0, 0⟩, 800, 800⟩ []).1 rfl

/-! ## Claim C2 — overlap correctness -/

/-- C2: in the polling strategy the element is judged visible iff its
rectangle overlaps the container's rectangle on both the vertical and the
horizontal axis, for the element-container branch and for the
window-viewport branch; the claim's two concrete examples evaluate as
stated. -/
theorem overlapCorrectness :
    (∀ (r c : Rect), r.top ≤ r.bottom → r.left ≤ r.right →
        c.top ≤ c.bottom → c.left ≤ c.right →
        (isVisibleElem r c = true ↔
          (segOverlap r.top r.bottom c.top c.bottom ∧
            segOverlap r.left r.right c.left c.right))) ∧
    (∀ (r : Rect) (winH winW : Int), r.top ≤ r.bottom → r.left ≤ r.right →
        0 ≤ winH → 0 ≤ winW →
        (isVisibleWin r winH winW = true ↔
          (segOverlap r.top r.bottom 0 winH ∧
            segOverlap r.left r.right 0 winW))) ∧
    isVisibleWin ⟨100, 200, 0, 50⟩ 300 100 = true ∧
    isVisibleWin ⟨400, 500, 0, 50⟩ 300 100 = false := by
  refine ⟨?_, ?_, by decide, by decide⟩
  · intro r c h1 h2 h3 h4
    rw [segOverlap_iff h1 h3, segOverlap_iff h2 h4]
    simp [isVisibleElem, inVerticalViewElem, inHorizontalViewElem]
  · intro r winH winW h1 h2 h3 h4
    rw [segOverlap_iff h1 h3, segOverlap_iff h2 h4]
    simp [isVisibleWin, inVerticalViewWin, inHorizontalViewWin]

/-- C2 (witness): the claim's first example, with both axis overlaps. -/
theorem overlapCorrectness_w :
    isVisibleWin ⟨100, 200, 0, 50⟩ 300 100 = true ↔
      (segOverlap 100 200 0 300 ∧ segOverlap 0 50 0 100) :=
  overlapCorrectness.2.1 ⟨100, 200, 0, 50⟩ 300 100 (by decide) (by decide)
    (by decide) (by decide)

/-! ## Claim C3 — disposal as cancellation primitive -/

/-- C3 (counterexample): polling instance, element off-screen; a scroll at
t=100 queues a debounce timer for t=400; `disconnectedCallback` leaves
that timer pending (not cancelled), no reveal has happened by disposal,
and when the timer fires at t=400 (the detached element now reporting a
zero rect) the unguarded `handleScroll` runs and reveals — a callback
after disposal. -/
theorem disposalCancellation_cex :
    (lazyTrace ⟨false, false, true, 300, 0⟩ false
        ⟨⟨1000, 1100, 0, 50⟩, ⟨0, 0, 0, 0⟩, 800, 800⟩
        [Ev.scroll 100 ⟨⟨1000, 1100, 0, 50⟩, ⟨0, 0, 0, 0⟩, 800, 800⟩,
          Ev.disconnect]).1.timer = some 400 ∧
    countReveals (lazyTrace ⟨false, false, true, 300, 0⟩ false
        ⟨⟨1000, 1100, 0, 50⟩, ⟨0, 0, 0, 0⟩, 800, 800⟩
        [Ev.scroll 100 ⟨⟨1000, 1100, 0, 50⟩, ⟨0, 0, 0, 0⟩, 800, 800⟩,
          Ev.disconnect]).2 = 0 ∧
    countReveals (lazyTrace ⟨false, false, true, 300, 0⟩ false
        ⟨⟨1000, 1100, 0, 50⟩, ⟨0, 0, 0, 0⟩, 800, 800⟩
        [Ev.scroll 100 ⟨⟨1000, 1100, 0, 50⟩, ⟨0, 0, 0, 0⟩, 800, 800⟩,
          Ev.disconnect,
          Ev.fire 400 ⟨⟨0, 0, 0, 0⟩, ⟨0, 0, 0, 0⟩, 800, 800⟩]).2 = 1 :=
  ⟨by decide, by decide, by decide⟩

/-- C3 (amended): disposal synchronously detaches the listeners and
disconnects the observer but does not cancel an in-flight rate-limiter
timer; such a timer still fires after disposal and runs `handleScroll`,
which is guarded only by `visibleByDefault`/`imageVisible` — not by a
disposed-check — and so can still reveal. -/
theorem disposalCancellation (cfg : Config) (s : St) (t : Nat) (v : View) :
    ((disconnectedCallback s).1.cbAttached = false ∧
      (disconnectedCallback s).1.observerConnected = false ∧
      (disconnectedCallback s).1.timer = s.timer) ∧
    (s.timer = some t → cfg.visibleByDefault = false →
      s.imageVisible = false → visibleFor s v = true →
      countReveals (stepEv cfg s (Ev.fire t v)).2 = 1) := by
  constructor
  · have h := disconnectedCallback_state s
    exact ⟨h.1, h.2.1, h.2.2.1⟩
  · intro h1 h2 h3 h4
    simp only [stepEv, if_pos h1]
    split
    · exact handleScroll_reveal_count cfg { s with timer := none } v h2
        (by simpa using h3) (by rw [visibleFor_timer]; exact h4)
    · exact handleScroll_reveal_count cfg { s with timer := none, lastCall := t }
        v h2 (by simpa using h3)
        (by rw [visibleFor_timer_lastCall]; exact h4)

/-- C3 (witness): the disposed state of the counterexample still holds its
timer, and the queued timer firing on it reveals. -/
theorem disposalCancellation_w :
    ((disconnectedCallback { initSt with timer := some 400 }).1.timer = some 400) ∧
    countReveals (stepEv ⟨false, false, true, 300, 0⟩
        { initSt with timer := some 400 }
        (Ev.fire 400 ⟨⟨0, 0, 0, 0⟩, ⟨0, 0, 0, 0⟩, 800, 800⟩)).2 = 1 :=
  ⟨(disposalCancellation ⟨false, false, true, 300, 0⟩ _ 400
      ⟨⟨0, 0, 0, 0⟩, ⟨0, 0, 0, 0⟩, 800, 800⟩).1.2.2,
    (disposalCancellation ⟨false, false, true, 300, 0⟩ _ 400
      ⟨⟨0, 0, 0, 0⟩, ⟨0, 0, 0, 0⟩, 800, 800⟩).2 rfl rfl rfl (by decide)⟩

/-! ## Claim C4 — transition order -/

/-- C4 (counterexample): on an intersecting observer callback the action
log is `[reveal, observer-disconnect]`: the reveal callback runs first
and the detection resources are disposed only afterwards, refuting
"first disposes all detection resources ... and only then invokes the
caller-supplied reveal callback". -/
theorem transitionOrder_cex :
    (stepEv ⟨false, true, true, 0, 0⟩
        (lazyTrace ⟨false, true, true, 0, 0⟩ false
          ⟨⟨1000, 1100, 0, 50⟩, ⟨0, 0, 0, 0⟩, 800, 800⟩ [Ev.observe]).1
        (Ev.obsCb true)).2 = [Act.reveal, Act.obsDisconnect] := by decide

/-- C4 (amended): on every Pending → Revealed transition the controller
invokes `loadImage` first and then unconditionally disposes the
triggering path's detection resources — observer disconnect after an
intersecting callback, removal of the scroll and resize listeners in the
polling handler — with exactly one reveal per transition. -/
theorem transitionOrder (cfg : Config) (s : St) (v : View) :
    (s.observerCreated = true →
      onIntersection s true =
        ({ s with imageVisible := true, observerConnected := false },
          [Act.reveal, Act.obsDisconnect])) ∧
    (cfg.visibleByDefault = false → s.imageVisible = false →
      s.cbAttached = true → visibleFor s v = true →
      handleScroll cfg s v =
        ({ s with imageVisible := true, cbAttached := false },
          [Act.reveal, Act.rmScrollParentScroll, Act.rmWindowScroll,
            Act.rmWindowResize])) := by
  constructor
  · intro hc
    exact onIntersection_true s hc
  · intro h1 h2 h3 h4
    rw [handleScroll_eq]
    simp [h1, h2, h3, h4, loadImage, removeScrollAndResizeListeners]

/-- C4 (witness): both transition paths at concrete states. -/
theorem transitionOrder_w :
    onIntersection { initSt with observerCreated := true, observerConnected := true, observed := true } true =
      ({ initSt with imageVisible := true, observerCreated := true, observed := true },
        [Act.reveal, Act.obsDisconnect]) ∧
    handleScroll ⟨false, false, true, 300, 0⟩
        { initSt with cbAttached := true }
        ⟨⟨0, 100, 0, 100⟩, ⟨0, 0, 0, 0⟩, 800, 800⟩ =
      ({ initSt with imageVisible := true },
        [Act.reveal, Act.rmScrollParentScroll, Act.rmWindowScroll,
          Act.rmWindowResize]) :=
  ⟨(transitionOrder ⟨false, true, true, 0, 0⟩ _
      ⟨⟨0, 0, 0, 0⟩, ⟨0, 0, 0, 0⟩, 0, 0⟩).1 rfl,
    (transitionOrder ⟨false, false, true, 300, 0⟩ _
      ⟨⟨0, 100, 0, 100⟩, ⟨0, 0, 0, 0⟩, 800, 800⟩).2 rfl rfl rfl (by decide)⟩

/-! ## Claim C5 — zero interval -/

/-- C5 (counterexample): `debounce` with interval 0 does not invoke
synchronously — a call at t=5 only schedules a timer due at t=5 and
returns without invoking — and two same-instant calls are coalesced into
a single deferred invocation, refuting "every call invokes the underlying
callback immediately and synchronously, with no call deferred or
coalesced". -/
theorem intervalZeroDegrade_cex :
    debounceCall 0 ⟨none⟩ 5 = (⟨some 5⟩, []) ∧
    debounceRun 0 ⟨none⟩ [5, 5] = [5] := by decide

/-- C5 (amended): with interval 0, `throttle` invokes the callback
immediately and synchronously on every call; `debounce` never invokes
synchronously — each call (re)schedules a zero-delay timer for its own
timestamp, deferring the invocation and coalescing same-instant calls. -/
theorem intervalZeroDegrade :
    (∀ (s : ThrottleState) (t : Nat),
        throttleCall 0 s t = ({ lastCall := t, timer := s.timer }, [t])) ∧
    (∀ (s : DebounceState) (t : Nat),
        debounceCall 0 s t = (⟨some t⟩, [])) := by
  constructor
  · intro s t
    simp [throttleCall]
  · intro s t
    simp [debounceCall]

/-! ## Claim C6 — idempotent disposal -/

/-- C6 (counterexample): a polling instance with a debounce timer queued
at disposal time: after dispose the end state still has the timer
pending, refuting the claimed end state "no pending timers". -/
theorem idempotentDisposal_cex :
    (disposeSt (lazyTrace ⟨false, false, true, 300, 0⟩ false
        ⟨⟨1000, 1100, 0, 50⟩, ⟨0, 0, 0, 0⟩, 800, 800⟩
        [Ev.scroll 100 ⟨⟨1000, 1100, 0, 50⟩, ⟨0, 0, 0, 0⟩, 800,
          800⟩]).1).timer = some 400 := by decide

/-- C6 (amended): calling dispose N ≥ 1 times, from any state (hence in
any combination with a prior natural Revealed transition), produces the
same end state as calling it once; afterwards no listeners are attached
and repeated disposals make no further listener-removal calls — but a
rate-limiter timer pending at disposal is not cancelled and remains
pending. -/
theorem idempotentDisposal (n : Nat) (s : St) :
    (1 ≤ n → disposeSt^[n] s = disposeSt s) ∧
    ((disposeSt s).cbAttached = false ∧ (disposeSt s).timer = s.timer) ∧
    listenerRemovals (disconnectedCallback (disposeSt s)).2 = [] := by
  refine ⟨disposeSt_iterate n s, ?_, ?_⟩
  · exact ⟨(disconnectedCallback_state s).1, (disconnectedCallback_state s).2.2.1⟩
  · have hcb : (disposeSt s).cbAttached = false := (disconnectedCallback_state s).1
    simp only [disconnectedCallback, removeScrollAndResizeListeners, hcb,
      Bool.false_eq_true, if_false, List.append_nil]
    split <;> decide

/-- C6 (witness): three disposals equal one. -/
theorem idempotentDisposal_w : disposeSt^[3] initSt = disposeSt initSt :=
  (idempotentDisposal 3 initSt).1 (by decide)

/-! ## Claim C7 — throttle window behavior -/

/-- C7: under throttle, a call past the window runs immediately and
records the timestamp; a call inside the window with no pending timer
schedules the single trailing timer for the remainder of the window
(`lastCall + delay`); further calls inside the window are coalesced; and
ten calls spaced 10ms apart with interval 300 yield exactly one immediate
invocation at the first call and one trailing invocation 300ms after it. -/
theorem throttleWindow :
    (∀ (delay : Nat) (s : ThrottleState) (now : Nat),
        delay ≤ now - s.lastCall →
        throttleCall delay s now =
          ({ lastCall := now, timer := s.timer }, [now])) ∧
    (∀ (delay : Nat) (s : ThrottleState) (now : Nat),
        s.lastCall ≤ now → now - s.lastCall < delay → s.timer = none →
        throttleCall delay s now =
          ({ s with timer := some (s.lastCall + delay) }, [])) ∧
    (∀ (delay : Nat) (s : ThrottleState) (now tf : Nat),
        now - s.lastCall < delay → s.timer = some tf →
        throttleCall delay s now = (s, [])) ∧
    (∀ t0 : Nat, 300 ≤ t0 →
        throttleRun 300 ⟨0, none⟩
          [t0, t0 + 10, t0 + 20, t0 + 30, t0 + 40, t0 + 50, t0 + 60, t0 + 70,
            t0 + 80, t0 + 90] = [t0, t0 + 300]) := by
  refine ⟨throttleCall_immediate, throttleCall_schedule, throttleCall_coalesce, ?_⟩
  intro t0 h
  have e1 : throttleCall 300 ⟨0, none⟩ t0 = (⟨t0, none⟩, [t0]) :=
    throttleCall_immediate 300 ⟨0, none⟩ t0 (by simpa using h)
  have e2 : throttleCall 300 ⟨t0, none⟩ (t0 + 10) =
      (⟨t0, some (t0 + 300)⟩, []) := by
    have := throttleCall_schedule 300 ⟨t0, none⟩ (t0 + 10)
      (by simp) (by simp) rfl
    simpa using this
  have e3 : throttleRun 300 ⟨t0, some (t0 + 300)⟩
      [t0 + 20, t0 + 30, t0 + 40, t0 + 50, t0 + 60, t0 + 70, t0 + 80,
        t0 + 90] = [t0 + 300] := by
    apply throttleRun_coalesce 300 _ t0 (t0 + 300)
    intro c hc
    simp only [List.mem_cons, List.not_mem_nil, or_false] at hc
    rcases hc with rfl | rfl | rfl | rfl | rfl | rfl | rfl | rfl <;>
      exact ⟨by omega, by omega⟩
  rw [throttleRun_cons_none 300 0 t0 _, e1]
  show [t0] ++ throttleRun 300 ⟨t0, none⟩
    [t0 + 10, t0 + 20, t0 + 30, t0 + 40, t0 + 50, t0 + 60, t0 + 70, t0 + 80,
      t0 + 90] = [t0, t0 + 300]
  rw [throttleRun_cons_none 300 t0 (t0 + 10) _, e2]
  show [t0] ++ ([] ++ throttleRun 300 ⟨t0, some (t0 + 300)⟩
    [t0 + 20, t0 + 30, t0 + 40, t0 + 50, t0 + 60, t0 + 70, t0 + 80,
      t0 + 90]) = [t0, t0 + 300]
  rw [e3]
  rfl

/-- C7 (witness): the ten-call scenario starting at t=1000. -/
theorem throttleWindow_w :
    throttleRun 300 ⟨0, none⟩
      [1000, 1010, 1020, 1030, 1040, 1050, 1060, 1070, 1080, 1090] =
      [1000, 1300] :=
  throttleWindow.2.2.2 1000 (by decide)

/-! ## Claim C8 — scroll-container resolution -/

/-- C8: over canonical computed overflow values, `getScrollParent` returns
the first (nearest) ancestor whose computed `overflow`, `overflowY` or
`overflowX` is "auto" or "scroll", and the window when the chain is
exhausted (including an element with no parent); the claim's nesting
example resolves to the inner overflow:auto div. -/
theorem scrollParentResolution :
    (∀ chain : List OverflowStyle,
        (∀ st ∈ chain, st.overflow ∈ canonOverflow ∧
          st.overflowY ∈ canonOverflow ∧ st.overflowX ∈ canonOverflow) →
        getScrollParent chain = specScrollParent chain) ∧
    getScrollParent [] = none ∧
    getScrollParent
      [⟨"auto", "auto", "auto"⟩, ⟨"visible", "visible", "visible"⟩] =
      some 0 := by
  refine ⟨?_, rfl, by decide⟩
  intro chain
  induction chain with
  | nil => intro _; rfl
  | cons st rest ih =>
    intro h
    obtain ⟨o, y, x⟩ := st
    have hmem := h _ (List.mem_cons_self _ _)
    have hkey := styleMatches_eq_fieldMatches o hmem.1 y hmem.2.1 x hmem.2.2
    simp only [getScrollParent, specScrollParent, hkey]
    rw [ih (fun st2 hst => h st2 (List.mem_cons_of_mem _ hst))]

/-- C8 (witness): the nesting example satisfies the canonical-values
hypothesis and the two resolvers agree on it. -/
theorem scrollParentResolution_w :
    getScrollParent
      [⟨"auto", "auto", "auto"⟩, ⟨"visible", "visible", "visible"⟩] =
    specScrollParent
      [⟨"auto", "auto", "auto"⟩, ⟨"visible", "visible", "visible"⟩] :=
  scrollParentResolution.1 _ (by decide)

/-! ## Claim C9 — activation check -/

/-- C9 (counterexample): a polling instance whose resolved scroll parent
is an element performs its activation check against that element's rect,
not the window viewport: the element overlaps the window viewport yet is
not revealed at activation, refuting "one synchronous geometric overlap
check against the window viewport is always performed regardless of which
detection strategy was selected". -/
theorem activationOverlap_cex :
    (connectedCallback ⟨false, false, true, 300, 0⟩ true
        ⟨⟨0, 10, 0, 10⟩, ⟨500, 600, 0, 100⟩, 800, 800⟩).1.imageVisible =
      false ∧
    isVisibleWin ⟨0, 10, 0, 10⟩ 800 800 = true := ⟨by decide, by decide⟩

/-- C9 (amended): at activation with `visibleByDefault` off, one
synchronous overlap check is always performed regardless of strategy;
under the observer strategy the cached scroll parent is still the window,
so the check is against the window viewport and an element already
overlapping it is revealed immediately, before any observer callback
(the observer is still connected and untouched); under the polling
strategy the check is against the resolved scroll container. -/
theorem activationOverlap (cfg : Config) (ri : Bool) (v : View) :
    (cfg.visibleByDefault = false →
      (connectedCallback cfg ri v).1.imageVisible = activationCheck cfg ri v ∧
      countReveals (connectedCallback cfg ri v).2 =
        (if activationCheck cfg ri v then 1 else 0)) ∧
    (cfg.visibleByDefault = false → cfg.useObserverEff = true →
      isVisibleWin v.rect v.winH v.winW = true →
      (connectedCallback cfg ri v).1.imageVisible = true ∧
      (connectedCallback cfg ri v).1.observerConnected = true) := by
  constructor
  · intro h
    rw [connectedCallback_eq cfg ri v h]
    unfold activationCheck
    split_ifs <;> simp_all [countReveals, initSt]
  · intro h h2 h3
    rw [connectedCallback_eq cfg ri v h]
    simp [h2, h3, initSt]

/-- C9 (witness): observer strategy, element overlapping the window
viewport at activation: revealed immediately, observer untouched. -/
theorem activationOverlap_w :
    (connectedCallback ⟨false, true, true, 0, 0⟩ false
        ⟨⟨0, 100, 0, 100⟩, ⟨0, 0, 0, 0⟩, 800, 800⟩).1.imageVisible = true ∧
    (connectedCallback ⟨false, true, true, 0, 0⟩ false
        ⟨⟨0, 100, 0, 100⟩, ⟨0, 0, 0, 0⟩, 800,
          800⟩).1.observerConnected = true :=
  (activationOverlap ⟨false, true, true, 0, 0⟩ false
    ⟨⟨0, 100, 0, 100⟩, ⟨0, 0, 0, 0⟩, 800, 800⟩).2 rfl rfl (by decide)

/-! ## Claim C10 — threshold noninterference -/

/-- C10: the polling strategy's visibility decision is independent of the
configured threshold — `handleScroll`, and every event step, computes the
same result and the same actions for any two threshold values — while the
observer strategy's `rootMargin` is exactly the configured threshold. -/
theorem thresholdNoninterference :
    (∀ (cfg : Config) (s : St) (v : View) (t1 t2 : Int),
        handleScroll { cfg with threshold := t1 } s v =
          handleScroll { cfg with threshold := t2 } s v) ∧
    (∀ (cfg : Config) (s : St) (e : Ev) (t1 t2 : Int),
        stepEv { cfg with threshold := t1 } s e =
          stepEv { cfg with threshold := t2 } s e) ∧
    (∀ (cfg : Config) (ri : Bool) (v : View) (t : Int),
        cfg.visibleByDefault = false → cfg.useObserverEff = true →
        (connectedCallback { cfg with threshold := t } ri v).1.rootMargin =
          t) := by
  refine ⟨?_, ?_, ?_⟩
  · intro cfg s v t1 t2
    simp [handleScroll]
  · intro cfg s e t1 t2
    cases e <;>
      simp [stepEv, handleScroll, disconnectedCallback, onIntersection]
  · intro cfg ri v t h1 h2
    rw [connectedCallback_eq _ ri v (by simpa using h1)]
    simp [h2, initSt]
    split <;> simp

/-- C10 (witness): with threshold 5, the observer's rootMargin is 5. -/
theorem thresholdNoninterference_w :
    (connectedCallback ⟨false, true, true, 0, 5⟩ false
        ⟨⟨0, 100, 0, 100⟩, ⟨0, 0, 0, 0⟩, 800, 800⟩).1.rootMargin = 5 :=
  thresholdNoninterference.2.2 ⟨false, true, true, 0, 0⟩ false
    ⟨⟨0, 100, 0, 100⟩, ⟨0, 0, 0, 0⟩, 800, 800⟩ 5 rfl rfl

end LazyImg
